import Mathlib

/-!
Verification development for the mwan3-nft multi-WAN policy-routing daemon.

The Rust sources are shallowly embedded: each stateful component is a pure
function over an explicit state record; the external `nft` tool is modelled as
always accepting well-formed commands, so each rule-emitting method becomes a
deterministic state transformer over the five-chain rule table.  `HashMap`s are
modelled as association lists (inserts of fresh keys append), `Instant`
timestamps and `Duration`s as natural numbers, fallible operations as
`Except`-valued functions that also return the post-state.
-/

namespace Mwan3

/-! Data model, from src/src/config.rs. -/

structure HealthCheckConfig where
  timeout : Nat
  interval : Nat
  url : String
  fail_threshold : Nat
  succ_threshold : Nat
deriving DecidableEq, Repr

structure GlobalConfig where
  policy : String
  udp_race : Bool
  mptcp : Bool
  tfo : Bool
  health_check : HealthCheckConfig
deriving DecidableEq, Repr

structure Interface where
  name : String
  interface_name : String
  weight : Nat
  mark : Nat
  enabled : Bool
  nftables_sets : List String
deriving DecidableEq, Repr

structure Policy where
  policy_type : String
  interfaces : List String
deriving DecidableEq, Repr

structure Config where
  global : GlobalConfig
  interfaces : List Interface
  policies : List Policy
deriving DecidableEq, Repr

/-! Rule table, from src/src/nftables.rs.  `NftablesManager` holds the fixed
table name "mwan3" and drives the five chains created by `create_chains`; we
keep each chain as the list of the `add rule` command strings that were issued
into it, exactly as the Rust code formats them. -/

def table_name : String := "mwan3"

structure NftState where
  mwan3_hook : List String
  mwan3_connected : List String
  mwan3_track : List String
  mwan3_policy : List String
  mwan3_rules : List String
deriving DecidableEq, Repr

def nft0 : NftState :=
  { mwan3_hook := [], mwan3_connected := [], mwan3_track := [],
    mwan3_policy := [], mwan3_rules := [] }

/-- Lowercase hexadecimal rendering of a natural number, mirroring Rust's
`{:x}` format specifier used when building rule strings. -/
def hexStr (n : Nat) : String := String.mk (Nat.toDigits 16 n)

/-- Append one rule command to the mwan3_policy chain ("add rule ... mwan3_policy ..."). -/
def addPolicyRule (s : NftState) (r : String) : NftState :=
  { s with mwan3_policy := s.mwan3_policy ++ [r] }

/-- Append one rule command to the mwan3_rules chain ("add rule ... mwan3_rules ..."). -/
def addRulesRule (s : NftState) (r : String) : NftState :=
  { s with mwan3_rules := s.mwan3_rules ++ [r] }

/-- `clear_interface_rules` (src/src/nftables.rs lines 64-72): despite its name it
flushes the whole mwan3_policy chain and ignores its interface argument. -/
def clear_interface_rules (interface : String) (s : NftState) : NftState :=
  { s with mwan3_policy := [] }

/-- `clear_policy_rules` (src/src/nftables.rs lines 113-118): flushes the
mwan3_policy chain. -/
def clear_policy_rules (s : NftState) : NftState :=
  { s with mwan3_policy := [] }

/-- Rule text emitted by `add_interface_rules` (src/src/nftables.rs lines 74-82);
the mark formatted with `{:x}` is the constant 1. -/
def oifRule (interface : String) : String :=
  "add rule inet " ++ table_name ++ " mwan3_policy oif " ++ interface ++
    " mark set 0x" ++ hexStr 1

def add_interface_rules (interface : String) (s : NftState) : NftState :=
  addPolicyRule s (oifRule interface)

/-- `update_rules` (src/src/nftables.rs lines 57-62): flush mwan3_policy, then add
the single oif rule for the selected interface. -/
def update_rules (interface : String) (s : NftState) : NftState :=
  add_interface_rules interface (clear_interface_rules interface s)

/-- Rule text emitted inside `setup_round_robin` (src/src/nftables.rs lines 88-94)
for list length `len`, member index `i` and the value `w` the code calls
`weight` (it is `i + 1`, used as the mark). -/
def rrRule (len i w : Nat) : String :=
  "add rule inet " ++ table_name ++ " mwan3_policy numgen random mod " ++
    toString len ++ " vmap \x7b " ++ toString i ++ " : mark set 0x" ++
    hexStr w ++ " \x7d"

/-- `setup_round_robin` (src/src/nftables.rs lines 84-98): flush mwan3_policy, then
for each (index, interface) of the enumerated list add one numgen-vmap rule.
The interface name and the `Policy` argument are unused in the rule text, and
`weight` is computed as `i + 1`. -/
def setup_round_robin (interfaces : List String) (s : NftState) : NftState :=
  interfaces.enum.foldl
    (fun st p => addPolicyRule st (rrRule interfaces.length p.1 (p.1 + 1)))
    (clear_policy_rules s)

/-- Rule text emitted by `setup_failover` (src/src/nftables.rs lines 100-111); the
primary interface name is not part of the rule. -/
def failoverRule : String :=
  "add rule inet " ++ table_name ++ " mwan3_policy mark set 0x1"

def setup_failover (primary : String) (s : NftState) : NftState :=
  addPolicyRule (clear_policy_rules s) failoverRule

/-- Rule text emitted by `setup_interface_sets` (src/src/nftables.rs lines 120-131)
for one bound source-set name and the uplink's mark. -/
def setsRule (set_name : String) (mark : Nat) : String :=
  "add rule inet " ++ table_name ++ " mwan3_rules ip saddr @" ++ set_name ++
    " mark set 0x" ++ hexStr mark

/-- `setup_interface_sets` (src/src/nftables.rs lines 120-131): for every set name
bound to the interface, append one saddr-match rule to mwan3_rules.  The
`enabled` flag is never consulted and nothing is flushed or removed. -/
def setup_interface_sets (interface : Interface) (s : NftState) : NftState :=
  interface.nftables_sets.foldl
    (fun st set_name => addRulesRule st (setsRule set_name interface.mark)) s

/-! Health monitoring, from src/src/health_check.rs. -/

structure InterfaceHealth where
  is_online : Bool
  latency : Option Nat
  last_check : Nat
  failure_count : Nat
  recovery_count : Nat
deriving DecidableEq, Repr

/-- `HealthChecker::update_health_status` (src/src/health_check.rs lines 116-118):
the body is an empty placeholder ("健康状态更新逻辑占位"); it mutates nothing,
so the record is returned unchanged whatever the probe outcome was. -/
def update_health_status (health : InterfaceHealth) (check_success : Bool) :
    InterfaceHealth :=
  health

/-- The record `or_insert`ed on first probe of an uplink
(src/src/health_check.rs lines 62-68). -/
def freshHealth (now : Nat) : InterfaceHealth :=
  { is_online := false, latency := none, last_check := now,
    failure_count := 0, recovery_count := 0 }

/-- `HealthChecker::check_interface` (src/src/health_check.rs lines 57-77) for one
uplink, parametrised by the probe result `probe` (`some latency` on success,
`none` on failure) and the record previously stored for the uplink (`none` if
this is the first probe).  The code unconditionally stores the probe result in
the `latency` field, then calls `update_health_status` with `latency.is_some()`. -/
def check_interface (now : Nat) (probe : Option Nat)
    (prev : Option InterfaceHealth) : InterfaceHealth :=
  let health := prev.getD (freshHealth now)
  let health := { health with last_check := now, latency := probe }
  update_health_status health probe.isSome

/-! Load balancer, from src/src/load_balancer.rs. -/

/-- `LoadBalancer::select_best_interface` (src/src/load_balancer.rs lines 79-84):
the head of the online-interface list, or the "No online interfaces" error. -/
def select_best_interface (interfaces : List String) : Except String String :=
  match interfaces with
  | [] => .error "No online interfaces"
  | x :: _ => .ok x

/-- `LoadBalancer::select_primary_interface` (src/src/load_balancer.rs lines
86-91): identical to `select_best_interface`; the `Policy` argument is unused. -/
def select_primary_interface (interfaces : List String) (policy : Policy) :
    Except String String :=
  match interfaces with
  | [] => .error "No online interfaces"
  | x :: _ => .ok x

/-- `apply_auto_select_policy` (src/src/load_balancer.rs lines 56-62) composed with
`update_routing_rules`: select from the online list, then rewrite mwan3_policy. -/
def apply_auto_select_policy (online : List String) (s : NftState) :
    Except String NftState :=
  (select_best_interface online).map (fun sel => update_rules sel s)

/-- `apply_round_robin_policy` (src/src/load_balancer.rs lines 64-69) composed with
`setup_round_robin_rules`: unconditionally rewrite mwan3_policy from the online
list; no emptiness check is performed. -/
def apply_round_robin_policy (online : List String) (policy : Policy)
    (s : NftState) : Except String NftState :=
  .ok (setup_round_robin online s)

/-- `apply_failover_policy` (src/src/load_balancer.rs lines 71-77) composed with
`setup_failover_rules`. -/
def apply_failover_policy (online : List String) (policy : Policy)
    (s : NftState) : Except String NftState :=
  (select_primary_interface online policy).map (fun primary => setup_failover primary s)

structure LBState where
  current_policy : Option String
  nft : NftState
deriving DecidableEq, Repr

/-- The dispatch `match policy.policy_type.as_str()` of `apply_policy`
(src/src/load_balancer.rs lines 43-48). -/
def run_policy (policy : Policy) (online : List String) (s : NftState) :
    Except String NftState :=
  if policy.policy_type == "url-test" then apply_auto_select_policy online s
  else if policy.policy_type == "load-balance" then
    apply_round_robin_policy online policy s
  else if policy.policy_type == "fallback" then
    apply_failover_policy online policy s
  else .error ("Unknown policy type: " ++ policy.policy_type)

/-- `LoadBalancer::apply_policy` (src/src/load_balancer.rs lines 37-54): look the
policy up by comparing `policy_type` with the given name, dispatch on its kind,
and only on success record the name in `current_policy`.  The first component
is the `Result`, the second the load-balancer state after the call. -/
def apply_policy (config : Config) (online : List String) (policy_name : String)
    (st : LBState) : Except String Unit × LBState :=
  match config.policies.find? (fun p => p.policy_type == policy_name) with
  | none => (.error ("Policy not found: " ++ policy_name), st)
  | some policy =>
    match run_policy policy online st.nft with
    | .error e => (.error e, st)
    | .ok nft => (.ok (), { current_policy := some policy_name, nft := nft })

/-! UDP race coordinator, from src/src/udp_race.rs. -/

structure UdpRace where
  id : Nat
  sockets : List String
  target : String
  data : List Nat
deriving DecidableEq, Repr

structure RaceState where
  race_counter : Nat
  active_races : List (Nat × UdpRace)
deriving DecidableEq, Repr

/-- `create_race_sockets` (src/src/udp_race.rs lines 90-102): one socket bound to
"0.0.0.0:0" per enabled interface; disabled interfaces get none. -/
def create_race_sockets (interfaces : List Interface) : List String :=
  (interfaces.filter (fun i => i.enabled)).map (fun _ => "0.0.0.0:0")

/-- `UdpRaceManager::start_race` (src/src/udp_race.rs lines 56-88): reject when the
global `udp-race` flag is off, otherwise increment the race counter, create the
sockets, register the race in `active_races` and return the new race id.  The
`HashMap` insert is modelled as appending the fresh key. -/
def start_race (config : Config) (target : String) (data : List Nat)
    (st : RaceState) : Except String Nat × RaceState :=
  if config.global.udp_race then
    let race_id := st.race_counter + 1
    let sockets := create_race_sockets config.interfaces
    let race : UdpRace := { id := race_id, sockets := sockets,
                            target := target, data := data }
    (.ok race_id,
     { race_counter := race_id,
       active_races := st.active_races ++ [(race_id, race)] })
  else (.error "UDP Race is disabled", st)

/-! Semantics of the compiled round-robin chain.  Each rule emitted by
`setup_round_robin` has the form
"... numgen random mod n vmap { i : mark set 0x(i+1) }": the kernel draws a
value r uniformly from [0, n) and the rule for index i fires exactly when
r = i. -/

/-- The member index the compiled chain selects for numgen value `r`. -/
def rr_selected_index (n r : Nat) : Option Nat :=
  if r < n then some r else none

/-- How many of the `n` equiprobable numgen values select member `i`; dividing
by `n` gives member `i`'s per-flow selection probability. -/
def rr_hits (n i : Nat) : Nat :=
  ((Finset.range n).filter (fun r => rr_selected_index n r = some i)).card

/-- Claim-side selection function, written from the spec's words for claim C3:
the first member of the policy's ordered uplink list that is also in the
online set. -/
def spec_first_in_policy_order (policy_list online : List String) :
    Option String :=
  policy_list.find? (fun x => online.contains x)

/-! Helper lemmas. -/

/-- Folding policy-rule appends over a list just appends the mapped rules. -/
lemma foldl_addPolicyRule {α : Type} (f : α → String) (xs : List α)
    (s : NftState) :
    xs.foldl (fun st a => addPolicyRule st (f a)) s =
      { s with mwan3_policy := s.mwan3_policy ++ xs.map f } := by
  induction xs generalizing s with
  | nil => simp
  | cons x xs ih =>
    rw [List.foldl_cons, ih]
    simp [addPolicyRule, List.append_assoc]

/-- Folding rules-chain appends over a list just appends the mapped rules. -/
lemma foldl_addRulesRule {α : Type} (f : α → String) (xs : List α)
    (s : NftState) :
    xs.foldl (fun st a => addRulesRule st (f a)) s =
      { s with mwan3_rules := s.mwan3_rules ++ xs.map f } := by
  induction xs generalizing s with
  | nil => simp
  | cons x xs ih =>
    rw [List.foldl_cons, ih]
    simp [addRulesRule, List.append_assoc]

/-- The compiled round-robin chain is a pure function of the online name list:
flush, then the enumerated vmap rules. -/
lemma setup_round_robin_eq (l : List String) (s : NftState) :
    setup_round_robin l s =
      { s with mwan3_policy :=
          l.enum.map (fun p => rrRule l.length p.1 (p.1 + 1)) } := by
  unfold setup_round_robin
  have h := foldl_addPolicyRule
    (fun p : Nat × String => rrRule l.length p.1 (p.1 + 1)) l.enum
    (clear_policy_rules s)
  simp only [clear_policy_rules, List.nil_append] at h
  convert h using 2

/-- The rules chain after `setup_interface_sets` is the old chain with one rule
appended per bound set name; no other chain changes. -/
lemma setup_interface_sets_eq (u : Interface) (s : NftState) :
    setup_interface_sets u s =
      { s with mwan3_rules := s.mwan3_rules ++
          u.nftables_sets.map (fun sn => setsRule sn u.mark) } := by
  unfold setup_interface_sets
  exact foldl_addRulesRule (fun sn => setsRule sn u.mark) u.nftables_sets s

/-- The numgen values selecting member `i` form the singleton `{i}` when
`i < n`. -/
lemma rr_filter_eq (n i : Nat) (h : i < n) :
    (Finset.range n).filter (fun r => rr_selected_index n r = some i) =
      ({i} : Finset Nat) := by
  ext r
  simp only [Finset.mem_filter, Finset.mem_range, Finset.mem_singleton,
    rr_selected_index]
  constructor
  · rintro ⟨hr, hsel⟩
    rw [if_pos hr] at hsel
    exact Option.some.inj hsel
  · rintro rfl
    exact ⟨h, by rw [if_pos h]⟩

/-- Each of the first `n` members is selected by exactly one of the `n`
equiprobable numgen values: its per-flow probability is 1/n. -/
lemma rr_hits_eq_one (n i : Nat) (h : i < n) : rr_hits n i = 1 := by
  unfold rr_hits
  rw [rr_filter_eq n i h]
  exact Finset.card_singleton i

/-! Concrete fixtures used by witnesses and counterexamples. -/

def hcW : HealthCheckConfig :=
  { timeout := 3, interval := 5, url := "http://www.gstatic.com/generate_204",
    fail_threshold := 3, succ_threshold := 2 }

def uplinkA : Interface :=
  { name := "A", interface_name := "eth0", weight := 1, mark := 1,
    enabled := true, nftables_sets := [] }

def uplinkB : Interface :=
  { name := "B", interface_name := "eth1", weight := 3, mark := 2,
    enabled := true, nftables_sets := [] }

def disabledUplink : Interface :=
  { name := "wanD", interface_name := "ethD", weight := 1, mark := 5,
    enabled := false, nftables_sets := ["blockset"] }

def polFallbackW : Policy := { policy_type := "fallback", interfaces := ["A", "B"] }

def lb0 : LBState := { current_policy := none, nft := nft0 }

def race0 : RaceState := { race_counter := 0, active_races := [] }

def cfgSelW : Config :=
  { global := { policy := "url-test", udp_race := true, mptcp := false,
                tfo := false, health_check := hcW },
    interfaces := [uplinkA, uplinkB],
    policies := [{ policy_type := "url-test", interfaces := ["A", "B"] }] }

def cfgPolW : Config :=
  { global := { policy := "fallback", udp_race := true, mptcp := false,
                tfo := false, health_check := hcW },
    interfaces := [uplinkA, uplinkB],
    policies := [{ policy_type := "weird", interfaces := [] },
                 { policy_type := "fallback", interfaces := ["A", "B"] }] }

def cfgNoEnabled : Config :=
  { global := { policy := "load-balance", udp_race := true, mptcp := false,
                tfo := false, health_check := hcW },
    interfaces := [disabledUplink], policies := [] }

def cfgRaceOff : Config :=
  { global := { policy := "url-test", udp_race := false, mptcp := false,
                tfo := false, health_check := hcW },
    interfaces := [uplinkA], policies := [] }

def nftWithOldPolicy : NftState := { nft0 with mwan3_policy := [failoverRule] }

def prevHealthW : InterfaceHealth :=
  { is_online := true, latency := some 42, last_check := 1,
    failure_count := 0, recovery_count := 2 }

/-! Claim theorems. -/

/-- C1: the claim states that a failed probe increments the consecutive-failure
count (resetting the success count) and that state transitions are gated by the
thresholds.  The code's `update_health_status` (src/src/health_check.rs lines
116-118) is an empty placeholder: it returns the record unchanged for every
outcome, so after a failed probe the failure count is still 0 — the counting
and threshold machinery the claim (and the surrounding data model) intends is
simply not implemented. -/
theorem c1_failed_probe_updates_nothing :
    (∀ (h : InterfaceHealth) (b : Bool), update_health_status h b = h) ∧
    (check_interface 7 none
        (some { is_online := true, latency := some 20, last_check := 3,
                failure_count := 0, recovery_count := 0 })).failure_count = 0 := by
  exact ⟨fun h b => rfl, rfl⟩

/-- C2: applying the same forwarding intent twice in succession yields a policy
chain identical to applying it once, for each of the three intent forms the
rule compiler supports (single winner, weighted set, priority failover): every
apply first flushes mwan3_policy and then re-adds rules determined only by the
intent, so the second apply changes neither rule count nor rule content. -/
theorem c2_apply_idempotent (interface : String) (online : List String)
    (primary : String) (s : NftState) :
    update_rules interface (update_rules interface s) = update_rules interface s ∧
    setup_round_robin online (setup_round_robin online s) = setup_round_robin online s ∧
    setup_failover primary (setup_failover primary s) = setup_failover primary s := by
  refine ⟨rfl, ?_, rfl⟩
  rw [setup_round_robin_eq online s, setup_round_robin_eq]

/-- C3 counterexample: with policy list ["A", "B"] and both uplinks online in an
online snapshot ordered ["B", "A"], the claim selects "A" (the first member of
the policy list that is online) while the code selects "B" (the head of the
online list); at activation level the compiled chain indeed routes via oif "B". -/
theorem c3_counterexample :
    spec_first_in_policy_order ["A", "B"] ["B", "A"] = some "A" ∧
    select_best_interface ["B", "A"] = Except.ok "B" ∧
    select_primary_interface ["B", "A"] polFallbackW = Except.ok "B" ∧
    (apply_policy cfgSelW ["B", "A"] "url-test" lb0).2.nft.mwan3_policy =
      [oifRule "B"] ∧
    ("B" : String) ≠ "A" := by
  exact ⟨by decide, rfl, rfl, rfl, by decide⟩

/-- C3 amended: best-path and priority-failover selection return the head of the
online list in the snapshot's own order, ignoring the policy's ordered uplink
list entirely (the result need not even occur in it); they fail with the
"No online interfaces" error exactly when the online list is empty. -/
theorem c3_amended_head_of_online (online : List String) (p : Policy) :
    (online = [] →
      select_best_interface online = .error "No online interfaces" ∧
      select_primary_interface online p = .error "No online interfaces") ∧
    (∀ x rest, online = x :: rest →
      select_best_interface online = .ok x ∧
      select_primary_interface online p = .ok x) := by
  constructor
  · rintro rfl
    exact ⟨rfl, rfl⟩
  · rintro x rest rfl
    exact ⟨rfl, rfl⟩

theorem c3_amended_witness :
    (select_best_interface [] = .error "No online interfaces" ∧
     select_primary_interface [] polFallbackW = .error "No online interfaces") ∧
    (select_best_interface ["B", "A"] = .ok "B" ∧
     select_primary_interface ["B", "A"] polFallbackW = .ok "B") :=
  ⟨(c3_amended_head_of_online [] polFallbackW).1 rfl,
   (c3_amended_head_of_online ["B", "A"] polFallbackW).2 "B" ["A"] rfl⟩

/-- C4 counterexample: activating the weighted-balance ("load-balance") policy
with an empty online subset does not fail with a NoUplinksAvailable-class
error; it succeeds and flushes mwan3_policy, destroying the previously
compiled rule instead of leaving it in place. -/
theorem c4_counterexample :
    nftWithOldPolicy.mwan3_policy ≠ [] ∧
    apply_round_robin_policy []
        { policy_type := "load-balance", interfaces := ["A", "B"] }
        nftWithOldPolicy =
      .ok { nftWithOldPolicy with mwan3_policy := [] } := by
  exact ⟨by decide, rfl⟩

/-- C4 amended: with an empty online subset, weighted-balance activation
succeeds (no error) and compiles the empty intent: the policy chain is flushed
and left empty, so the previously compiled rules are removed, not preserved. -/
theorem c4_amended_empty_online (policy : Policy) (s : NftState) :
    apply_round_robin_policy [] policy s = .ok { s with mwan3_policy := [] } := rfl

/-- C5 counterexample: for the online set {A: weight 1, B: weight 3}, the
compiled chain consists of two uniform numgen rules ("mod 2", indices 0 and 1,
marks 1 and 2).  Each member is matched by exactly one of the two equiprobable
numgen values, so A's per-flow probability is 1/2, not 1/4 = 1/(1+3), and B's
is 1/2, not 3/4: the configured weights are not even passed to
`setup_round_robin`, whose local variable named weight is the index + 1 and is
used as the mark. -/
theorem c5_counterexample :
    uplinkA.weight = 1 ∧ uplinkB.weight = 3 ∧
    setup_round_robin [uplinkA.name, uplinkB.name] nft0 =
      { nft0 with mwan3_policy := [rrRule 2 0 1, rrRule 2 1 2] } ∧
    (rr_hits 2 0 : ℚ) / 2 ≠
      (uplinkA.weight : ℚ) / ((uplinkA.weight : ℚ) + (uplinkB.weight : ℚ)) ∧
    (rr_hits 2 1 : ℚ) / 2 ≠
      (uplinkB.weight : ℚ) / ((uplinkA.weight : ℚ) + (uplinkB.weight : ℚ)) := by
  refine ⟨rfl, rfl, rfl, ?_, ?_⟩
  · have h : rr_hits 2 0 = 1 := by decide
    rw [h]
    simp only [uplinkA, uplinkB]
    norm_num
  · have h : rr_hits 2 1 = 1 := by decide
    rw [h]
    simp only [uplinkA, uplinkB]
    norm_num

/-- C5 amended: the compiled weighted-balance chain gives every online member
the uniform per-flow probability 1/N — member i (for i < N) is selected by
exactly one of the N equiprobable numgen values — and the chain is exactly the
enumerated vmap rules whose formatted value is the member's index + 1, used as
the mark; configured weights play no part. -/
theorem c5_amended_uniform (l : List String) (s : NftState) (i : Nat)
    (h : i < l.length) :
    setup_round_robin l s =
      { s with mwan3_policy :=
          l.enum.map (fun p => rrRule l.length p.1 (p.1 + 1)) } ∧
    rr_hits l.length i = 1 :=
  ⟨setup_round_robin_eq l s, rr_hits_eq_one l.length i h⟩

theorem c5_amended_uniform_witness :
    setup_round_robin ["A", "B"] nft0 =
      { nft0 with mwan3_policy := List.map (fun p => rrRule (List.length ["A", "B"]) p.1 (p.1 + 1)) (List.enum ["A", "B"]) } ∧
    rr_hits (List.length ["A", "B"]) 0 = 1 :=
  c5_amended_uniform ["A", "B"] nft0 0 (by decide)

/-- C6: activation by name fails with the policy-not-found error when no
configured policy matches the given name (the lookup compares each stored kind
string with the name), fails with the unknown-policy-type error when the
matched policy's kind is none of "url-test"/"load-balance"/"fallback", leaves
the recorded active policy unchanged in both failure cases, and records the
name as active whenever the call succeeds. -/
theorem c6_activation_errors (config : Config) (online : List String)
    (policy_name : String) (st : LBState) :
    (config.policies.find? (fun p => p.policy_type == policy_name) = none →
      apply_policy config online policy_name st =
        (.error ("Policy not found: " ++ policy_name), st)) ∧
    (∀ p, config.policies.find? (fun q => q.policy_type == policy_name) = some p →
      (p.policy_type == "url-test") = false →
      (p.policy_type == "load-balance") = false →
      (p.policy_type == "fallback") = false →
      apply_policy config online policy_name st =
        (.error ("Unknown policy type: " ++ p.policy_type), st)) ∧
    (∀ p nft,
      config.policies.find? (fun q => q.policy_type == policy_name) = some p →
      run_policy p online st.nft = .ok nft →
      apply_policy config online policy_name st =
        (.ok (), { current_policy := some policy_name, nft := nft })) := by
  refine ⟨?_, ?_, ?_⟩
  · intro h
    unfold apply_policy
    rw [h]
  · intro p hp h1 h2 h3
    simp [apply_policy, hp, run_policy, h1, h2, h3]
  · intro p nft hp hr
    simp [apply_policy, hp, hr]

theorem c6_activation_errors_witness :
    apply_policy cfgPolW ["A"] "nope" lb0 = (.error "Policy not found: nope", lb0) ∧
    apply_policy cfgPolW ["A"] "weird" lb0 = (.error "Unknown policy type: weird", lb0) ∧
    apply_policy cfgPolW ["A"] "fallback" lb0 =
      (.ok (), { current_policy := some "fallback",
                 nft := setup_failover "A" nft0 }) :=
  ⟨(c6_activation_errors cfgPolW ["A"] "nope" lb0).1 (by decide),
   (c6_activation_errors cfgPolW ["A"] "weird" lb0).2.1
     { policy_type := "weird", interfaces := [] }
     (by decide) (by decide) (by decide) (by decide),
   (c6_activation_errors cfgPolW ["A"] "fallback" lb0).2.2
     polFallbackW (setup_failover "A" nft0) (by decide) rfl⟩

/-- C7 counterexample: a disabled uplink still contributes its source-set rule —
the enabled flag is never consulted — and the rewrite is not a pure function of
the uplink list: pre-existing chain content is kept and appended to, so
disabling an uplink removes none of its rules. -/
theorem c7_counterexample :
    disabledUplink.enabled = false ∧
    (setup_interface_sets disabledUplink nft0).mwan3_rules =
      ["add rule inet mwan3 mwan3_rules ip saddr @blockset mark set 0x5"] ∧
    (setup_interface_sets disabledUplink
        { nft0 with mwan3_rules := ["stale rule"] }).mwan3_rules =
      ["stale rule",
       "add rule inet mwan3 mwan3_rules ip saddr @blockset mark set 0x5"] := by
  exact ⟨rfl, by decide, by decide⟩

/-- C7 amended: `setup_interface_sets` appends to mwan3_rules exactly one rule
per bound source-set name, carrying the uplink's mark, regardless of the
enabled flag (the flag is irrelevant to the output), and never removes or
rewrites anything: the resulting chain is the prior content plus the new rules,
and no other chain changes. -/
theorem c7_amended_sets_append (u : Interface) (s : NftState) :
    setup_interface_sets u s =
      { s with mwan3_rules := s.mwan3_rules ++
          u.nftables_sets.map (fun sn => setsRule sn u.mark) } ∧
    setup_interface_sets { u with enabled := false } s =
      setup_interface_sets { u with enabled := true } s := by
  refine ⟨setup_interface_sets_eq u s, ?_⟩
  rw [setup_interface_sets_eq, setup_interface_sets_eq]

/-- C8 counterexample: with the udp-race flag on and zero enabled uplinks,
`start_race` does not fail with a NoUplinksAvailable-class error: it returns Ok
with race id 1 and registers a race whose socket list is empty — it reports a
result rather than refusing to start. -/
theorem c8_counterexample :
    cfgNoEnabled.interfaces.filter (fun i => i.enabled) = [] ∧
    start_race cfgNoEnabled "203.0.113.7:53" [1, 2] race0 =
      (.ok 1,
       { race_counter := 1,
         active_races := [(1, { id := 1, sockets := [],
                                target := "203.0.113.7:53", data := [1, 2] })] }) := by
  exact ⟨rfl, rfl⟩

/-- C8 amended: when the udp-race flag is on and no uplink is enabled,
`start_race` succeeds: it increments the race counter, creates no per-uplink
socket, registers a race with an empty socket list and returns the new id. -/
theorem c8_amended_zero_enabled (config : Config) (target : String)
    (data : List Nat) (st : RaceState)
    (hflag : config.global.udp_race = true)
    (hnone : config.interfaces.filter (fun i => i.enabled) = []) :
    start_race config target data st =
      (.ok (st.race_counter + 1),
       { race_counter := st.race_counter + 1,
         active_races := st.active_races ++
           [(st.race_counter + 1,
             { id := st.race_counter + 1, sockets := [],
               target := target, data := data })] }) := by
  unfold start_race create_race_sockets
  rw [hflag, hnone]
  simp

theorem c8_amended_zero_enabled_witness :
    cfgNoEnabled.global.udp_race = true ∧
    cfgNoEnabled.interfaces.filter (fun i => i.enabled) = [] ∧
    start_race cfgNoEnabled "198.51.100.1:443" [7] race0 =
      (.ok (race0.race_counter + 1),
       { race_counter := race0.race_counter + 1,
         active_races := race0.active_races ++
           [(race0.race_counter + 1,
             { id := race0.race_counter + 1, sockets := [],
               target := "198.51.100.1:443", data := [7] })] }) :=
  ⟨rfl, rfl,
   c8_amended_zero_enabled cfgNoEnabled "198.51.100.1:443" [7] race0 rfl rfl⟩

/-- C9 counterexample: the record held latency `some 42` before the probe; after
a failed probe (`none` result) the latency field is `none` — it does not retain
its previous value, contrary to the claim. -/
theorem c9_counterexample :
    prevHealthW.latency = some 42 ∧
    (check_interface 9 none (some prevHealthW)).latency = none ∧
    (none : Option Nat) ≠ some 42 := by
  exact ⟨rfl, rfl, by decide⟩

/-- C9 amended: after any probe the latency field equals that probe's result —
on failure it is overwritten with the no-data value `none`, so latency holds a
value only immediately after a successful probe. -/
theorem c9_amended_latency_overwritten (now : Nat) (probe : Option Nat)
    (prev : Option InterfaceHealth) :
    (check_interface now probe prev).latency = probe := rfl

/-- C10: with the global udp-race flag off, `start_race` fails immediately with
the "UDP Race is disabled" error and the whole race state is unchanged: the
race counter is not incremented, no socket is created and no entry is added to
the active-race map. -/
theorem c10_disabled_flag_rejects (config : Config) (target : String)
    (data : List Nat) (st : RaceState)
    (h : config.global.udp_race = false) :
    start_race config target data st = (.error "UDP Race is disabled", st) := by
  unfold start_race
  rw [h]
  simp

theorem c10_disabled_flag_rejects_witness :
    start_race cfgRaceOff "203.0.113.1:53" [0] race0 =
      (.error "UDP Race is disabled", race0) :=
  c10_disabled_flag_rejects cfgRaceOff "203.0.113.1:53" [0] race0 rfl

end Mwan3
